import Mathlib

/-!
Shallow embedding of the karta queue-monitor core
(models/queue.go, cmd/main.go, internal/bot/telegram_bot.go,
internal/database/sqlite.go) and proofs about it.

Go `int` (64-bit signed) is modelled as `Int`; the one arithmetic step of
the estimator that can exceed the int64 range (the product
`ticketsRemaining * avgServiceMinutes`) is reduced into range with
`wrap64`.  Go `time.Time` values are modelled as `Nat` (seconds); the
layout `Format("15:04:05")` is modelled by `timeHMS` and `IsZero` by
equality with 0.
-/

deriving instance DecidableEq for Except

/-- Largest value of Go's 64-bit signed `int`. -/
def maxInt64 : Int := 9223372036854775807

/-- Reduce an integer into the signed 64-bit range, as Go's `int`
arithmetic does on overflow (two's-complement wraparound). -/
def wrap64 (x : Int) : Int := (x + 2 ^ 63) % 2 ^ 64 - 2 ^ 63

/-- The digit test `char >= '0' && char <= '9'` used by the Go parsers. -/
def goIsDigit (c : Char) : Bool := decide ('0' ≤ c ∧ c ≤ '9')

/-- `strconv.Atoi` on a non-empty string of decimal digits: the numeric
value when it fits in a 64-bit `int`, an error otherwise. -/
def atoi (numStr : List Char) : Except String Int :=
  let v : Nat := numStr.foldl (fun acc c => acc * 10 + (c.toNat - 48)) 0
  if (v : Int) ≤ maxInt64 then Except.ok (v : Int) else Except.error ("value out of range")

/-- `QueueData` (models/queue.go): the queue information snapshot. -/
structure QueueData where
  Name : String
  ServedClients : String
  WaitingClients : String
  Workplaces : String
  AvgServiceTime : String
  AvgWaitTime : String
  LastTicket : String
  TicketsLeft : String
  Status : String
  LastUpdated : Nat
  LastChanged : Nat
deriving DecidableEq, Repr

/-- `QueueChanges` (models/queue.go): changes between two queue states.
The Go `map[string]bool` that only ever stores `true` values is modelled
by its list of keys. -/
structure QueueChanges where
  HasChanges : Bool
  ChangedFields : List String
  PreviousData : Option QueueData
  CurrentData : QueueData
deriving DecidableEq, Repr

/-- `CompareQueues` (models/queue.go): compares two `QueueData` instances
and returns changes.  Excludes `AvgServiceTime` and `AvgWaitTime` (and the
two `time.Time` fields, which the Go function never looks at) from the
comparison.  `HasChanges` is set exactly when some compared field was
added to `ChangedFields`. -/
def CompareQueues (previous : Option QueueData) (current : QueueData) : QueueChanges :=
  match previous with
  | none =>
    { HasChanges := true, ChangedFields := [], PreviousData := none, CurrentData := current }
  | some prev =>
    let changedFields :=
      (if prev.Name ≠ current.Name then ["name"] else []) ++
      (if prev.ServedClients ≠ current.ServedClients then ["served_clients"] else []) ++
      (if prev.WaitingClients ≠ current.WaitingClients then ["waiting_clients"] else []) ++
      (if prev.Workplaces ≠ current.Workplaces then ["workplaces"] else []) ++
      (if prev.LastTicket ≠ current.LastTicket then ["last_ticket"] else []) ++
      (if prev.TicketsLeft ≠ current.TicketsLeft then ["tickets_left"] else []) ++
      (if prev.Status ≠ current.Status then ["status"] else [])
    { HasChanges := !changedFields.isEmpty, ChangedFields := changedFields,
      PreviousData := some prev, CurrentData := current }

/-- `IsEmpty` (models/queue.go): checks if queue data is empty/invalid. -/
def QueueData.IsEmpty (q : QueueData) : Bool :=
  q.Name = "" && q.ServedClients = "" && q.WaitingClients = ""

/-- `Clone` (models/queue.go): creates a deep copy of `QueueData`
(field-by-field copy; the `nil` receiver case corresponds to `none` at
the call sites and is handled there). -/
def QueueData.Clone (q : QueueData) : QueueData :=
  { Name := q.Name
    ServedClients := q.ServedClients
    WaitingClients := q.WaitingClients
    Workplaces := q.Workplaces
    AvgServiceTime := q.AvgServiceTime
    AvgWaitTime := q.AvgWaitTime
    LastTicket := q.LastTicket
    TicketsLeft := q.TicketsLeft
    Status := q.Status
    LastUpdated := q.LastUpdated
    LastChanged := q.LastChanged }

/-- `extractTicketNumber` (models/queue.go): keeps every digit character
of the ticket string, errors when there is none, otherwise `Atoi`. -/
def extractTicketNumber (ticket : String) : Except String Int :=
  let numStr := ticket.toList.filter goIsDigit
  if numStr.isEmpty then Except.error ("no number found in ticket") else atoi numStr

/-- The scanning loop shared by `parseServiceTime` and `parseWorkplaces`
(models/queue.go): append digit characters, skip characters before the
first digit, and stop at the first non-digit after at least one digit. -/
def scanLeadingNumber : List Char → List Char → List Char
  | [], acc => acc
  | c :: rest, acc =>
    if goIsDigit c then scanLeadingNumber rest (acc ++ [c])
    else if acc.isEmpty then scanLeadingNumber rest acc
    else acc

/-- `parseServiceTime` (models/queue.go): extracts the leading number
from strings like `"6 min."`. -/
def parseServiceTime (serviceTime : String) : Except String Int :=
  let numStr := scanLeadingNumber serviceTime.toList []
  if numStr.isEmpty then Except.error ("no number found in service time") else atoi numStr

/-- `parseWorkplaces` (models/queue.go): extracts the leading number from
strings like `"3"` or `"5 stanowisk"`. -/
def parseWorkplaces (workplaces : String) : Except String Int :=
  let numStr := scanLeadingNumber workplaces.toList []
  if numStr.isEmpty then Except.error ("no number found in workplaces") else atoi numStr

/-- `CalculateWaitTime` (models/queue.go): estimated wait in minutes for
a user's ticket.  Mirrors the Go control flow: empty-ticket guard, numeric
extraction of both tickets, the `ticketsRemaining <= 0` early return,
metric parsing, the `workplaces <= 0` clamp to 1, and
`ticketsRemaining * avgServiceMinutes / workplaces` with Go's
truncated (`tdiv`) integer division; the product is wrapped into the
int64 range exactly as Go's `int` multiplication is. -/
def QueueData.CalculateWaitTime (q : QueueData) (userTicket : String) : Except String Int :=
  if userTicket = "" ∨ q.LastTicket = "" then Except.error ("missing ticket information")
  else
    match extractTicketNumber userTicket with
    | Except.error e => Except.error ("invalid user ticket format: " ++ e)
    | Except.ok userNum =>
      match extractTicketNumber q.LastTicket with
      | Except.error e => Except.error ("invalid current ticket format: " ++ e)
      | Except.ok currentNum =>
        let ticketsRemaining := userNum - currentNum
        if ticketsRemaining ≤ 0 then Except.ok 0
        else
          match parseServiceTime q.AvgServiceTime with
          | Except.error e => Except.error ("invalid service time format: " ++ e)
          | Except.ok avgServiceMinutes =>
            match parseWorkplaces q.Workplaces with
            | Except.error e => Except.error ("invalid workplaces format: " ++ e)
            | Except.ok workplaces =>
              let workplaces := if workplaces ≤ 0 then 1 else workplaces
              let totalServiceTime := wrap64 (ticketsRemaining * avgServiceMinutes)
              Except.ok (Int.tdiv totalServiceTime workplaces)

/-- The characters `strings.NewReplacer` escapes in `escapeMarkdown`
(models/queue.go): `_*[]()~\x60>#+-=|\x7b\x7d.!`. -/
def markdownSpecialChars : List Char :=
  ['_', '*', '[', ']', '(', ')', '~', Char.ofNat 96, '>', '#',
   '+', '-', '=', '|', Char.ofNat 123, Char.ofNat 125, '.', '!']

/-- `escapeMarkdown` (models/queue.go): escapes Telegram-MarkdownV2
special characters.  The Go replacer's patterns are all single
characters, so it is the per-character map. -/
def escapeMarkdown (text : String) : String :=
  String.join (text.toList.map
    (fun c => if markdownSpecialChars.contains c then "\\" ++ c.toString else c.toString))

/-- Two-digit zero padding used by the clock layout. -/
def pad2 (n : Nat) : String := if n < 10 then "0" ++ toString n else toString n

/-- Model of Go's `Time.Format("15:04:05")` on a timestamp modelled in
seconds: hours, minutes and seconds of the day, zero padded. -/
def timeHMS (t : Nat) : String :=
  pad2 (t / 3600 % 24) ++ ":" ++ pad2 (t / 60 % 60) ++ ":" ++ pad2 (t % 60)

/-- The `formatField` closure of `FormatTelegramMessageWithTicket`
(models/queue.go): one rendered line per tracked field, prefixed with the
changed marker when the field is in the change-set and the unchanged
marker otherwise. -/
def formatField (changes : Option QueueChanges) (label value fieldKey : String) : String :=
  let emoji :=
    match changes with
    | some ch => if ch.ChangedFields.contains fieldKey then "🟢" else "⚪"
    | none => "⚪"
  emoji ++ " *" ++ label ++ ":* " ++ escapeMarkdown value ++ "\n"

/-- The personal-ticket section of `FormatTelegramMessageWithTicket`
(models/queue.go lines 116-133): empty when no ticket is registered or
the estimate errors; the remaining-time line for a positive estimate; the
"it is your turn" line for a zero estimate. -/
def ticketSection (q : QueueData) (userTicket : String) : String :=
  if userTicket = "" then ""
  else
    match q.CalculateWaitTime userTicket with
    | Except.error _ => ""
    | Except.ok waitTime =>
      if 0 < waitTime then
        let hours := Int.tdiv waitTime 60
        let minutes := Int.tmod waitTime 60
        if 0 < hours then
          "\n🎫 *Ваш билет " ++ escapeMarkdown userTicket ++ " \\- осталось:* "
            ++ toString hours ++ " ч\\. " ++ toString minutes ++ " мин\\."
        else
          "\n🎫 *Ваш билет " ++ escapeMarkdown userTicket ++ " \\- осталось:* "
            ++ toString minutes ++ " мин\\."
      else if waitTime = 0 then
        "\n🎫 *Ваш билет " ++ escapeMarkdown userTicket ++ " \\- ваша очередь\\!*"
      else ""

/-- `FormatTelegramMessageWithTicket` (models/queue.go): the full
rendered message — header, the seven tracked-field lines with change
markers, the optional personal-ticket section, the sync time and (when
non-zero) the last-change time. -/
def QueueData.FormatTelegramMessageWithTicket
    (q : QueueData) (changes : Option QueueChanges) (userTicket : String) : String :=
  "🏢 *Очередь: odbiór karty \\(Wrocław\\)*\n\n"
    ++ formatField changes ("Обслужено") q.ServedClients ("served_clients")
    ++ formatField changes ("Ожидает") q.WaitingClients ("waiting_clients")
    ++ formatField changes ("Стоек") q.Workplaces ("workplaces")
    ++ formatField changes ("Среднее время") q.AvgServiceTime ("avg_service_time")
    ++ formatField changes ("Последний билет") q.LastTicket ("last_ticket")
    ++ formatField changes ("Осталось билетов") q.TicketsLeft ("tickets_left")
    ++ formatField changes ("Статус очереди") q.Status ("status")
    ++ ticketSection q userTicket
    ++ "\n🔄 *Синхронизация:* " ++ timeHMS q.LastUpdated
    ++ (if q.LastChanged = 0 then "" else "\n⏰ *Изменение:* " ++ timeHMS q.LastChanged)

/-- `FormatTelegramMessage` (models/queue.go): the broadcast message,
i.e. the ticket variant with no ticket. -/
def QueueData.FormatTelegramMessage (q : QueueData) (changes : Option QueueChanges) : String :=
  q.FormatTelegramMessageWithTicket changes ("")

/-- `User` (internal/database/sqlite.go): a Telegram user row. -/
structure User where
  ID : Int
  ChatID : Int
  Username : String
  JoinedAt : Nat
  Active : Bool
deriving DecidableEq, Repr

/-- `GetActiveUsers` (internal/database/sqlite.go): the rows satisfying
`WHERE active = 1`, in table order. -/
def GetActiveUsers (db : List User) : List User := db.filter (fun u => u.Active)

/-- `DeactivateUser` (internal/database/sqlite.go):
`UPDATE users SET active = 0 WHERE chat_id = ?`. -/
def DeactivateUser (db : List User) (chatID : Int) : List User :=
  db.map (fun u => if u.ChatID = chatID then { u with Active := false } else u)

/-- The mutable state of `TelegramBot` (internal/bot/telegram_bot.go):
the `userMsgs` map from chat id to live message id, and the shared users
table.  A `sendMessage` result of 0 means the send failed. -/
structure TelegramBot where
  userMsgs : Int → Option Nat
  db : List User

/-- `sync.Map.Store` on `userMsgs`. -/
def storeMsg (m : Int → Option Nat) (chatID : Int) (msgID : Nat) : Int → Option Nat :=
  fun c => if c = chatID then some msgID else m c

/-- `sync.Map.Delete` on `userMsgs`. -/
def deleteMsg (m : Int → Option Nat) (chatID : Int) : Int → Option Nat :=
  fun c => if c = chatID then none else m c

/-- The "send new message" tail of the per-user loop body of
`BroadcastQueueUpdate` (internal/bot/telegram_bot.go lines 169-180):
`send` is the delivery collaborator (`sendMessage`); on a non-zero
message id the id is stored as the user's live message, otherwise the
user is deactivated. -/
def sendNewMessage (send : Int → String → Nat) (message : String)
    (b : TelegramBot) (user : User) : TelegramBot :=
  let msgID := send user.ChatID message
  if msgID ≠ 0 then { b with userMsgs := storeMsg b.userMsgs user.ChatID msgID }
  else { b with db := DeactivateUser b.db user.ChatID }

/-- One iteration of the fan-out loop of `BroadcastQueueUpdate`
(internal/bot/telegram_bot.go lines 156-184): try to update the stored
live message in place (`upd` is the `updateMessage` collaborator:
`true` = no error); on success the state is unchanged, on failure the
stale id is deleted and a fresh send is attempted. -/
def processUser (send : Int → String → Nat) (upd : Int → Nat → String → Bool)
    (message : String) (b : TelegramBot) (user : User) : TelegramBot :=
  match b.userMsgs user.ChatID with
  | some msgID =>
    if upd user.ChatID msgID message then b
    else sendNewMessage send message { b with userMsgs := deleteMsg b.userMsgs user.ChatID } user
  | none => sendNewMessage send message b user

/-- `BroadcastQueueUpdate` (internal/bot/telegram_bot.go): renders the
message once and runs the per-user delivery step over the active-user
list. -/
def BroadcastQueueUpdate (send : Int → String → Nat) (upd : Int → Nat → String → Bool)
    (b : TelegramBot) (queueData : QueueData) (changes : Option QueueChanges) : TelegramBot :=
  let users := GetActiveUsers b.db
  let message := queueData.FormatTelegramMessage changes
  users.foldl (processUser send upd message) b

/-- The mutable engine state of `Application` (cmd/main.go): last
accepted snapshot, last-changed timestamp, and the stored ("sticky")
change-set shown until the next real change. -/
structure Application where
  lastData : Option QueueData
  lastChanged : Nat
  lastChanges : Option QueueChanges

/-- `processQueueUpdate` (cmd/main.go): one accepted-snapshot cycle.
`now` is `time.Now()`; `saveOk` is the outcome of `SaveQueueHistory`,
which the Go code only logs.  Returns the new engine state, the new bot
state after the broadcast, the snapshot as broadcast (with its
`LastChanged` field set), and the change-set handed to the broadcast. -/
def processQueueUpdate (send : Int → String → Nat) (upd : Int → Nat → String → Bool)
    (app : Application) (bot : TelegramBot) (newData : QueueData) (now : Nat)
    (saveOk : Bool) : Application × TelegramBot × QueueData × Option QueueChanges :=
  let _ := saveOk
  let changes := CompareQueues app.lastData newData
  let (lastChanged, lastChanges) :=
    match app.lastData with
    | none => (now, none)
    | some _ =>
      if changes.HasChanges then (now, some changes)
      else (app.lastChanged, app.lastChanges)
  let nd := { newData with LastChanged := lastChanged }
  let changesToShow := if changes.HasChanges then some changes else lastChanges
  let bot2 := BroadcastQueueUpdate send upd bot nd changesToShow
  ({ lastData := some nd.Clone, lastChanged := lastChanged, lastChanges := lastChanges },
   bot2, nd, changesToShow)

/-- A concrete snapshot in the shape the poller produces, used by the
worked examples below. -/
def qWro : QueueData :=
  { Name := "odbior karty", ServedClients := "120", WaitingClients := "40",
    Workplaces := "3", AvgServiceTime := "6 min.", AvgWaitTime := "2 h",
    LastTicket := "K065", TicketsLeft := "10", Status := "otwarta",
    LastUpdated := 100, LastChanged := 50 }

/-- Concrete snapshot with a one-ticket gap and a short service time. -/
def qTurn : QueueData := { qWro with AvgServiceTime := "1 min.", LastTicket := "K066" }

/-- Concrete snapshot whose parsed metrics overflow the int64 product. -/
def qOv : QueueData :=
  { qWro with LastTicket := "1", AvgServiceTime := "2147483648 min.", Workplaces := "0" }

/-- Concrete snapshot reporting zero workplaces. -/
def qZeroW : QueueData := { qWro with AvgServiceTime := "3 min.", Workplaces := "0" }

/-- A concrete non-empty change-set. -/
def chEx : QueueChanges :=
  { HasChanges := true, ChangedFields := ["last_ticket"], PreviousData := none,
    CurrentData := qWro }

/-- A concrete engine state that has already accepted `qWro`. -/
def appEx : Application :=
  { lastData := some qWro, lastChanged := 50, lastChanges := some chEx }

/-- A concrete active subscriber row. -/
def uAlice : User := { ID := 1, ChatID := 10, Username := "alice", JoinedAt := 0, Active := true }

/-- Bot state with one active subscriber and no live message. -/
def botNoMsg : TelegramBot := { userMsgs := fun _ => none, db := [uAlice] }

/-- Bot state with one active subscriber holding live message 5. -/
def botWithMsg : TelegramBot :=
  { userMsgs := fun c => if c = 10 then some 5 else none, db := [uAlice] }

/-- Delivery oracle: every send fails (`sendMessage` returns 0). -/
def sendFail : Int → String → Nat := fun _ _ => 0

/-- Delivery oracle: every send succeeds with message id 77. -/
def send77 : Int → String → Nat := fun _ _ => 77

/-- Delivery oracle: every in-place update fails. -/
def updFail : Int → Nat → String → Bool := fun _ _ _ => false

/-- Every row of the users table with the given chat id is inactive. -/
def allInactive (db : List User) (chatID : Int) : Prop :=
  ∀ r ∈ db, r.ChatID = chatID → r.Active = false

/-- Every row of the users table with the given chat id is active. -/
def allActive (db : List User) (chatID : Int) : Prop :=
  ∀ r ∈ db, r.ChatID = chatID → r.Active = true

/-!  Helper lemmas shared by the claim proofs. -/

theorem wrap64_eq_self (x : Int) (h0 : 0 ≤ x) (hm : x ≤ maxInt64) : wrap64 x = x := by
  rw [wrap64]
  rw [maxInt64] at hm
  omega

theorem extractTicketNumber_ok_ne_empty {t : String} {u : Int}
    (h : extractTicketNumber t = Except.ok u) : t ≠ "" := by
  intro he
  subst he
  have h0 : extractTicketNumber "" = Except.error ("no number found in ticket") := rfl
  rw [h0] at h
  exact Except.noConfusion h

theorem calculateWaitTime_ok_zero_aux (q : QueueData) (userTicket : String) (u c : Int)
    (hu : extractTicketNumber userTicket = Except.ok u)
    (hc : extractTicketNumber q.LastTicket = Except.ok c)
    (hle : u ≤ c) : q.CalculateWaitTime userTicket = Except.ok 0 := by
  have h1 : userTicket ≠ "" := extractTicketNumber_ok_ne_empty hu
  have h2 : q.LastTicket ≠ "" := extractTicketNumber_ok_ne_empty hc
  have hd : u - c ≤ 0 := by omega
  unfold QueueData.CalculateWaitTime
  simp [hu, hc, h1, h2, hd]

/-- C9: comparing an absent previous snapshot with any current snapshot
reports a change with an empty changed-field set. -/
theorem compareQueues_none_always_changed (current : QueueData) :
    (CompareQueues none current).HasChanges = true ∧
    (CompareQueues none current).ChangedFields = [] :=
  ⟨rfl, rfl⟩

/-- C3: on ticket "K222" against last ticket "K065", average service time
"6 min." and workplaces "3", the estimator returns exactly 314 minutes
with no error, which is floor((222-65)*6/3). -/
theorem calculateWaitTime_example_314 :
    qWro.CalculateWaitTime ("K222") = Except.ok 314 ∧
    ((222 - 65) * 6 / 3 : Int) = 314 := by decide

/-- C2 counterexample: two snapshots that differ only in the fetch
timestamp `LastUpdated` (a snapshot field that is neither of the two
average-time fields) are reported as unchanged by `CompareQueues`, and
likewise for `LastChanged`; so a differing non-average-time field does
not always yield `HasChanges = true`. -/
theorem compareQueues_timestamp_cex :
    qWro.LastUpdated ≠ ({ qWro with LastUpdated := 101 } : QueueData).LastUpdated ∧
    (CompareQueues (some qWro) { qWro with LastUpdated := 101 }).HasChanges = false ∧
    qWro.LastChanged ≠ ({ qWro with LastChanged := 51 } : QueueData).LastChanged ∧
    (CompareQueues (some qWro) { qWro with LastChanged := 51 }).HasChanges = false := by
  decide

/-- C2 (amended): `CompareQueues` flags a field as changed exactly when
it differs, for each of the seven compared fields (name, served clients,
waiting clients, workplaces, last ticket, tickets left, status);
`HasChanges` is true exactly when one of these seven differs.  The two
average-time fields and the two timestamp fields are excluded from the
comparison. -/
theorem compareQueues_flags_exactly_compared_fields (prev current : QueueData) :
    ((CompareQueues (some prev) current).HasChanges = true ↔
      (prev.Name ≠ current.Name ∨ prev.ServedClients ≠ current.ServedClients ∨
       prev.WaitingClients ≠ current.WaitingClients ∨ prev.Workplaces ≠ current.Workplaces ∨
       prev.LastTicket ≠ current.LastTicket ∨ prev.TicketsLeft ≠ current.TicketsLeft ∨
       prev.Status ≠ current.Status)) ∧
    (("name" ∈ (CompareQueues (some prev) current).ChangedFields) ↔
      prev.Name ≠ current.Name) ∧
    (("served_clients" ∈ (CompareQueues (some prev) current).ChangedFields) ↔
      prev.ServedClients ≠ current.ServedClients) ∧
    (("waiting_clients" ∈ (CompareQueues (some prev) current).ChangedFields) ↔
      prev.WaitingClients ≠ current.WaitingClients) ∧
    (("workplaces" ∈ (CompareQueues (some prev) current).ChangedFields) ↔
      prev.Workplaces ≠ current.Workplaces) ∧
    (("last_ticket" ∈ (CompareQueues (some prev) current).ChangedFields) ↔
      prev.LastTicket ≠ current.LastTicket) ∧
    (("tickets_left" ∈ (CompareQueues (some prev) current).ChangedFields) ↔
      prev.TicketsLeft ≠ current.TicketsLeft) ∧
    (("status" ∈ (CompareQueues (some prev) current).ChangedFields) ↔
      prev.Status ≠ current.Status) := by
  by_cases h1 : prev.Name = current.Name <;>
  by_cases h2 : prev.ServedClients = current.ServedClients <;>
  by_cases h3 : prev.WaitingClients = current.WaitingClients <;>
  by_cases h4 : prev.Workplaces = current.Workplaces <;>
  by_cases h5 : prev.LastTicket = current.LastTicket <;>
  by_cases h6 : prev.TicketsLeft = current.TicketsLeft <;>
  by_cases h7 : prev.Status = current.Status <;>
  simp [CompareQueues, h1, h2, h3, h4, h5, h6, h7]

/-- C7: whenever the numeric extraction succeeds on both the user's
ticket and the snapshot's last-served ticket and the user's number is at
most the last-served number, the estimator returns zero minutes ("it's
your turn") with no error; and it does so for arbitrary contents of the
two metric fields, which it never parses on this path. -/
theorem calculateWaitTime_your_turn (q : QueueData) (userTicket : String) (u c : Int)
    (hu : extractTicketNumber userTicket = Except.ok u)
    (hc : extractTicketNumber q.LastTicket = Except.ok c)
    (hle : u ≤ c) :
    q.CalculateWaitTime userTicket = Except.ok 0 ∧
    ∀ s w : String,
      ({ q with AvgServiceTime := s, Workplaces := w } : QueueData).CalculateWaitTime
        userTicket = Except.ok 0 := by
  refine ⟨calculateWaitTime_ok_zero_aux q userTicket u c hu hc hle, fun s w => ?_⟩
  exact calculateWaitTime_ok_zero_aux _ userTicket u c hu hc hle

theorem calculateWaitTime_your_turn_witness :
    extractTicketNumber ("K010") = Except.ok 10 ∧ (10 : Int) ≤ 65 ∧
    qWro.CalculateWaitTime ("K010") = Except.ok 0 :=
  ⟨by decide, by decide,
    (calculateWaitTime_your_turn qWro ("K010") 10 65 (by decide) (by decide) (by decide)).1⟩

/-- C8 counterexample: with workplaces "0", last ticket "1", user ticket
"4294967297" and average service time "2147483648 min." every metric
parses and delta is positive, but the int64 product wraps around, so the
estimator returns the negative wrapped value, not
delta * averageServiceMinutes. -/
theorem calculateWaitTime_overflow_cex :
    parseWorkplaces qOv.Workplaces = Except.ok 0 ∧
    extractTicketNumber ("4294967297") = Except.ok 4294967297 ∧
    extractTicketNumber qOv.LastTicket = Except.ok 1 ∧
    parseServiceTime qOv.AvgServiceTime = Except.ok 2147483648 ∧
    qOv.CalculateWaitTime ("4294967297") = Except.ok (-9223372036854775808) ∧
    qOv.CalculateWaitTime ("4294967297") ≠
      Except.ok ((4294967297 - 1) * 2147483648 : Int) := by
  decide

/-- C8 (amended): a parsed workplace count of zero (or, per the code's
guard, any non-positive count) is clamped to 1 before the division, so
the divisor is never zero; when delta is positive and both metrics
parse, the estimator returns the product delta * averageServiceMinutes
reduced into the signed-64-bit range, which equals
delta * averageServiceMinutes itself whenever that product fits in
int64. -/
theorem calculateWaitTime_clamps_zero_workplaces
    (q : QueueData) (userTicket : String) (u c avg w : Int)
    (hu : extractTicketNumber userTicket = Except.ok u)
    (hc : extractTicketNumber q.LastTicket = Except.ok c)
    (hgt : c < u)
    (havg : parseServiceTime q.AvgServiceTime = Except.ok avg)
    (hw : parseWorkplaces q.Workplaces = Except.ok w)
    (hw0 : w ≤ 0) :
    q.CalculateWaitTime userTicket = Except.ok (wrap64 ((u - c) * avg)) ∧
    (0 ≤ (u - c) * avg → (u - c) * avg ≤ maxInt64 →
      q.CalculateWaitTime userTicket = Except.ok ((u - c) * avg)) := by
  have h1 : userTicket ≠ "" := extractTicketNumber_ok_ne_empty hu
  have h2 : q.LastTicket ≠ "" := extractTicketNumber_ok_ne_empty hc
  have hd : ¬(u - c ≤ 0) := by omega
  have hmain : q.CalculateWaitTime userTicket = Except.ok (wrap64 ((u - c) * avg)) := by
    unfold QueueData.CalculateWaitTime
    simp [hu, hc, h1, h2, hd, havg, hw, hw0, Int.tdiv_one]
  refine ⟨hmain, fun hp hm => ?_⟩
  rw [hmain, wrap64_eq_self _ hp hm]

theorem calculateWaitTime_clamps_zero_workplaces_witness :
    parseWorkplaces qZeroW.Workplaces = Except.ok 0 ∧
    qZeroW.CalculateWaitTime ("K067") = Except.ok 6 := by
  refine ⟨by decide, ?_⟩
  have h := (calculateWaitTime_clamps_zero_workplaces qZeroW ("K067") 67 65 3 0
    (by decide) (by decide) (by decide) (by decide) (by decide) (by decide)).2
    (by decide) (by decide)
  rw [h]
  decide

/-- C10: there is an input whose ticket number is strictly ahead of the
last-served number for which the estimator still returns 0 minutes with
no error (delta 1, average "1 min.", workplaces "3", floor(1*1/3) = 0);
and the renderer shows the "your turn" line for every zero-minute,
error-free result, so the zero result is indistinguishable from an
actually reached turn. -/
theorem zero_estimate_renders_your_turn :
    (∃ u c : Int,
      extractTicketNumber ("K067") = Except.ok u ∧
      extractTicketNumber qTurn.LastTicket = Except.ok c ∧
      c < u ∧ qTurn.CalculateWaitTime ("K067") = Except.ok 0) ∧
    (∀ (q : QueueData) (userTicket : String), userTicket ≠ "" →
      q.CalculateWaitTime userTicket = Except.ok 0 →
      ticketSection q userTicket =
        "\n🎫 *Ваш билет " ++ escapeMarkdown userTicket ++ " \\- ваша очередь\\!*") := by
  constructor
  · exact ⟨67, 66, by decide, by decide, by decide, by decide⟩
  · intro q userTicket hne hzero
    unfold ticketSection
    rw [if_neg hne, hzero]
    simp

theorem zero_estimate_renders_your_turn_witness :
    qTurn.CalculateWaitTime ("K067") = Except.ok 0 ∧
    ticketSection qTurn ("K067") = "\n🎫 *Ваш билет K067 \\- ваша очередь\\!*" := by
  refine ⟨by decide, ?_⟩
  have h := zero_estimate_renders_your_turn.2 qTurn ("K067") (by decide) (by decide)
  rw [h]
  decide

/-- C1: in every `processQueueUpdate` cycle the last-changed timestamp is
set to the current time on the first snapshot and whenever the comparator
reports a change; on a no-change poll the last-changed timestamp and the
stored sticky change-set are left untouched and the change-set handed to
the broadcast (whose markers the rendered message carries) is exactly the
previously stored one; and whenever the clock has not moved backward the
last-changed timestamp does not move backward either. -/
theorem processQueueUpdate_lastChanged_spec
    (send : Int → String → Nat) (upd : Int → Nat → String → Bool)
    (app : Application) (bot : TelegramBot) (newData : QueueData) (now : Nat)
    (saveOk : Bool) :
    (app.lastData = none →
      (processQueueUpdate send upd app bot newData now saveOk).1.lastChanged = now) ∧
    (∀ p, app.lastData = some p →
      (CompareQueues (some p) newData).HasChanges = true →
      (processQueueUpdate send upd app bot newData now saveOk).1.lastChanged = now) ∧
    (∀ p, app.lastData = some p →
      (CompareQueues (some p) newData).HasChanges = false →
      (processQueueUpdate send upd app bot newData now saveOk).1.lastChanged
          = app.lastChanged ∧
      (processQueueUpdate send upd app bot newData now saveOk).1.lastChanges
          = app.lastChanges ∧
      (processQueueUpdate send upd app bot newData now saveOk).2.2.2
          = app.lastChanges) ∧
    (app.lastChanged ≤ now →
      app.lastChanged ≤ (processQueueUpdate send upd app bot newData now saveOk).1.lastChanged) := by
  refine ⟨?_, ?_, ?_, ?_⟩
  · intro h
    simp [processQueueUpdate, h]
  · intro p hp hch
    simp [processQueueUpdate, hp, hch]
  · intro p hp hch
    simp [processQueueUpdate, hp, hch]
  · intro hle
    rcases happ : app.lastData with _ | p
    · simp [processQueueUpdate, happ]
      omega
    · by_cases hch : (CompareQueues (some p) newData).HasChanges <;>
        simp [processQueueUpdate, happ, hch]
      omega

theorem processQueueUpdate_lastChanged_spec_witness :
    (CompareQueues (some qWro) qWro).HasChanges = false ∧
    (processQueueUpdate sendFail updFail appEx botNoMsg qWro 100 true).1.lastChanged = 50 ∧
    (processQueueUpdate sendFail updFail appEx botNoMsg qWro 100 true).2.2.2 = some chEx ∧
    50 ≤ (processQueueUpdate sendFail updFail appEx botNoMsg qWro 100 true).1.lastChanged := by
  have h := processQueueUpdate_lastChanged_spec sendFail updFail appEx botNoMsg qWro 100 true
  have h3 := h.2.2.1 qWro rfl (by decide)
  exact ⟨by decide, h3.1, h3.2.2, h.2.2.2 (by decide)⟩

/-- C6: once a snapshot reaches `processQueueUpdate`, the cycle always
ends with the engine's last-accepted snapshot replaced by a deep copy
(`Clone`, which copies every field) of the new snapshot as processed
(its `LastChanged` field set for this cycle); the resulting engine state
does not depend on the history-persistence outcome or on the delivery
collaborators, i.e. it is the same whatever the save flag and the
send/update oracles are. -/
theorem processQueueUpdate_always_replaces_lastData
    (send1 send2 : Int → String → Nat) (upd1 upd2 : Int → Nat → String → Bool)
    (app : Application) (bot : TelegramBot) (newData : QueueData) (now : Nat)
    (s1 s2 : Bool) :
    (processQueueUpdate send1 upd1 app bot newData now s1).1.lastData =
      some (QueueData.Clone
        { newData with
            LastChanged := (processQueueUpdate send1 upd1 app bot newData now s1).1.lastChanged }) ∧
    (∀ q : QueueData, q.Clone = q) ∧
    (processQueueUpdate send1 upd1 app bot newData now s1).1 =
      (processQueueUpdate send2 upd2 app bot newData now s2).1 := by
  refine ⟨?_, fun q => by cases q; rfl, ?_⟩
  · rcases happ : app.lastData with _ | p
    · simp [processQueueUpdate, happ]
    · by_cases hch : (CompareQueues (some p) newData).HasChanges <;>
        simp [processQueueUpdate, happ, hch]
  · rcases happ : app.lastData with _ | p
    · simp [processQueueUpdate, happ]
    · by_cases hch : (CompareQueues (some p) newData).HasChanges <;>
        simp [processQueueUpdate, happ, hch]

theorem deactivateUser_self_inactive (db : List User) (c : Int) :
    allInactive (DeactivateUser db c) c := by
  intro r hr hc
  rw [DeactivateUser, List.mem_map] at hr
  obtain ⟨r0, _, rfl⟩ := hr
  by_cases h : r0.ChatID = c
  · simp [h]
  · simp [h] at hc

theorem deactivateUser_preserves_allInactive (db : List User) (c c2 : Int)
    (h : allInactive db c) : allInactive (DeactivateUser db c2) c := by
  intro r hr hc
  rw [DeactivateUser, List.mem_map] at hr
  obtain ⟨r0, hr0, rfl⟩ := hr
  by_cases h2 : r0.ChatID = c2
  · simp [h2]
  · simp [h2] at hc ⊢
    exact h r0 hr0 hc

theorem deactivateUser_preserves_other_allActive (db : List User) (c c2 : Int)
    (hne : c2 ≠ c) (h : allActive db c) : allActive (DeactivateUser db c2) c := by
  intro r hr hc
  rw [DeactivateUser, List.mem_map] at hr
  obtain ⟨r0, hr0, rfl⟩ := hr
  by_cases h2 : r0.ChatID = c2
  · simp [h2] at hc
    exact absurd hc hne
  · simp [h2] at hc ⊢
    exact h r0 hr0 hc

theorem processUser_db_cases (send : Int → String → Nat) (upd : Int → Nat → String → Bool)
    (message : String) (b : TelegramBot) (user : User) :
    (processUser send upd message b user).db = b.db ∨
    (processUser send upd message b user).db = DeactivateUser b.db user.ChatID := by
  unfold processUser sendNewMessage
  cases hm : b.userMsgs user.ChatID with
  | none =>
    by_cases hs : send user.ChatID message ≠ 0
    · left
      simp [hs]
    · right
      simp [hs]
  | some m =>
    by_cases hu : upd user.ChatID m message
    · left
      simp [hu]
    · by_cases hs : send user.ChatID message ≠ 0
      · left
        simp [hu, hs]
      · right
        simp [hu, hs]

theorem processUser_msgs_other (send : Int → String → Nat) (upd : Int → Nat → String → Bool)
    (message : String) (b : TelegramBot) (user : User) (c : Int)
    (hne : user.ChatID ≠ c) :
    (processUser send upd message b user).userMsgs c = b.userMsgs c := by
  have hc : c ≠ user.ChatID := fun h => hne h.symm
  unfold processUser sendNewMessage storeMsg deleteMsg
  cases hm : b.userMsgs user.ChatID with
  | none =>
    by_cases hs : send user.ChatID message ≠ 0 <;> simp [hs, hc]
  | some m =>
    by_cases hu : upd user.ChatID m message
    · simp [hu]
    · by_cases hs : send user.ChatID message ≠ 0 <;> simp [hu, hs, hc]

theorem processUser_own_deactivates (send : Int → String → Nat)
    (upd : Int → Nat → String → Bool) (message : String) (b : TelegramBot) (user : User)
    (hupd : ∀ m, b.userMsgs user.ChatID = some m → upd user.ChatID m message = false)
    (hsend : send user.ChatID message = 0) :
    allInactive (processUser send upd message b user).db user.ChatID := by
  unfold processUser sendNewMessage
  cases hm : b.userMsgs user.ChatID with
  | none =>
    simp [hsend]
    exact deactivateUser_self_inactive b.db user.ChatID
  | some m =>
    have h := hupd m hm
    simp [h, hsend]
    exact deactivateUser_self_inactive b.db user.ChatID

theorem processUser_preserves_allInactive (send : Int → String → Nat)
    (upd : Int → Nat → String → Bool) (message : String) (b : TelegramBot) (user : User)
    (c : Int) (h : allInactive b.db c) :
    allInactive (processUser send upd message b user).db c := by
  rcases processUser_db_cases send upd message b user with hdb | hdb
  · rw [hdb]
    exact h
  · rw [hdb]
    exact deactivateUser_preserves_allInactive b.db c user.ChatID h

theorem processUser_preserves_other_allActive (send : Int → String → Nat)
    (upd : Int → Nat → String → Bool) (message : String) (b : TelegramBot) (user : User)
    (c : Int) (hne : user.ChatID ≠ c) (h : allActive b.db c) :
    allActive (processUser send upd message b user).db c := by
  rcases processUser_db_cases send upd message b user with hdb | hdb
  · rw [hdb]
    exact h
  · rw [hdb]
    exact deactivateUser_preserves_other_allActive b.db c user.ChatID hne h

theorem foldl_preserves_allInactive (send : Int → String → Nat)
    (upd : Int → Nat → String → Bool) (message : String) (users : List User)
    (b : TelegramBot) (c : Int) (h : allInactive b.db c) :
    allInactive ((users.foldl (processUser send upd message) b)).db c := by
  induction users generalizing b with
  | nil => exact h
  | cons v rest ih =>
    rw [List.foldl_cons]
    exact ih _ (processUser_preserves_allInactive send upd message b v c h)

theorem foldl_preserves_other_allActive (send : Int → String → Nat)
    (upd : Int → Nat → String → Bool) (message : String) (users : List User)
    (b : TelegramBot) (c : Int) (hne : ∀ v ∈ users, v.ChatID ≠ c)
    (h : allActive b.db c) :
    allActive ((users.foldl (processUser send upd message) b)).db c := by
  induction users generalizing b with
  | nil => exact h
  | cons v rest ih =>
    rw [List.foldl_cons]
    exact ih _ (fun x hx => hne x (List.mem_cons_of_mem v hx))
      (processUser_preserves_other_allActive send upd message b v c
        (hne v (List.mem_cons_self v rest)) h)

theorem foldl_preserves_msgs_other (send : Int → String → Nat)
    (upd : Int → Nat → String → Bool) (message : String) (users : List User)
    (b : TelegramBot) (c : Int) (hne : ∀ v ∈ users, v.ChatID ≠ c) :
    ((users.foldl (processUser send upd message) b)).userMsgs c = b.userMsgs c := by
  induction users generalizing b with
  | nil => rfl
  | cons v rest ih =>
    rw [List.foldl_cons, ih _ (fun x hx => hne x (List.mem_cons_of_mem v hx))]
    exact processUser_msgs_other send upd message b v c (hne v (List.mem_cons_self v rest))

theorem foldl_deactivates_failed (send : Int → String → Nat)
    (upd : Int → Nat → String → Bool) (message : String) :
    ∀ (users : List User) (b : TelegramBot) (u : User),
      u ∈ users → (users.map User.ChatID).Nodup →
      (∀ m, b.userMsgs u.ChatID = some m → upd u.ChatID m message = false) →
      send u.ChatID message = 0 →
      allInactive ((users.foldl (processUser send upd message) b)).db u.ChatID := by
  intro users
  induction users with
  | nil =>
    intro b u hmem
    exact absurd hmem (List.not_mem_nil u)
  | cons v rest ih =>
    intro b u hmem hnodup hupd hsend
    rw [List.map_cons, List.nodup_cons] at hnodup
    rw [List.foldl_cons]
    rcases List.mem_cons.mp hmem with rfl | hmem'
    · exact foldl_preserves_allInactive send upd message rest _ _
        (processUser_own_deactivates send upd message b u hupd hsend)
    · have hne : v.ChatID ≠ u.ChatID := by
        intro h
        apply hnodup.1
        rw [h]
        exact List.mem_map_of_mem User.ChatID hmem'
      refine ih _ u hmem' hnodup.2 ?_ hsend
      intro m hm
      rw [processUser_msgs_other send upd message b v u.ChatID hne] at hm
      exact hupd m hm

theorem processUser_resend_success (send : Int → String → Nat)
    (upd : Int → Nat → String → Bool) (message : String) (b : TelegramBot) (user : User)
    (m newID : Nat)
    (hm : b.userMsgs user.ChatID = some m)
    (hupd : upd user.ChatID m message = false)
    (hsend : send user.ChatID message = newID) (hnz : newID ≠ 0) :
    (processUser send upd message b user).userMsgs user.ChatID = some newID ∧
    (processUser send upd message b user).db = b.db := by
  unfold processUser sendNewMessage storeMsg
  rw [hm]
  simp [hupd, hsend, hnz]

theorem foldl_resend_success (send : Int → String → Nat)
    (upd : Int → Nat → String → Bool) (message : String) :
    ∀ (users : List User) (b : TelegramBot) (u : User) (m newID : Nat),
      u ∈ users → (users.map User.ChatID).Nodup →
      b.userMsgs u.ChatID = some m →
      upd u.ChatID m message = false →
      send u.ChatID message = newID → newID ≠ 0 →
      allActive b.db u.ChatID →
      ((users.foldl (processUser send upd message) b)).userMsgs u.ChatID = some newID ∧
      allActive ((users.foldl (processUser send upd message) b)).db u.ChatID := by
  intro users
  induction users with
  | nil =>
    intro b u m newID hmem
    exact absurd hmem (List.not_mem_nil u)
  | cons v rest ih =>
    intro b u m newID hmem hnodup hm hupd hsend hnz hact
    rw [List.map_cons, List.nodup_cons] at hnodup
    rw [List.foldl_cons]
    rcases List.mem_cons.mp hmem with rfl | hmem'
    · have hstep := processUser_resend_success send upd message b u m newID hm hupd hsend hnz
      have hrest : ∀ x ∈ rest, x.ChatID ≠ u.ChatID := by
        intro x hx h
        apply hnodup.1
        rw [← h]
        exact List.mem_map_of_mem User.ChatID hx
      constructor
      · rw [foldl_preserves_msgs_other send upd message rest _ u.ChatID hrest]
        exact hstep.1
      · refine foldl_preserves_other_allActive send upd message rest _ u.ChatID hrest ?_
        rw [hstep.2]
        exact hact
    · have hne : v.ChatID ≠ u.ChatID := by
        intro h
        apply hnodup.1
        rw [h]
        exact List.mem_map_of_mem User.ChatID hmem'
      refine ih _ u m newID hmem' hnodup.2 ?_ hupd hsend hnz ?_
      · rw [processUser_msgs_other send upd message b v u.ChatID hne]
        exact hm
      · exact processUser_preserves_other_allActive send upd message b v u.ChatID hne hact

/-- C4: during a broadcast cycle, every subscriber in the active list
whose fresh send fails (the `sendMessage` oracle returns 0) after having
no usable live message or after a failed in-place update ends the cycle
with every users-table row of its chat id inactive, and the
active-subscriber listing of the resulting table — the input of the next
cycle's fan-out — contains no row with that chat id. -/
theorem broadcast_failed_send_deactivates
    (send : Int → String → Nat) (upd : Int → Nat → String → Bool)
    (b : TelegramBot) (queueData : QueueData) (changes : Option QueueChanges) (u : User)
    (hnodup : (b.db.map User.ChatID).Nodup)
    (hmem : u ∈ GetActiveUsers b.db)
    (hupd : ∀ m, b.userMsgs u.ChatID = some m →
      upd u.ChatID m (queueData.FormatTelegramMessage changes) = false)
    (hsend : send u.ChatID (queueData.FormatTelegramMessage changes) = 0) :
    (∀ r ∈ (BroadcastQueueUpdate send upd b queueData changes).db,
      r.ChatID = u.ChatID → r.Active = false) ∧
    (∀ r ∈ GetActiveUsers (BroadcastQueueUpdate send upd b queueData changes).db,
      r.ChatID ≠ u.ChatID) := by
  have hnd2 : ((GetActiveUsers b.db).map User.ChatID).Nodup :=
    hnodup.sublist ((List.filter_sublist b.db).map User.ChatID)
  have hall : allInactive (BroadcastQueueUpdate send upd b queueData changes).db u.ChatID :=
    foldl_deactivates_failed send upd _ (GetActiveUsers b.db) b u hmem hnd2 hupd hsend
  refine ⟨hall, ?_⟩
  intro r hr hrc
  have h2 := List.mem_filter.mp hr
  exact absurd (hall r h2.1 hrc) (by simp [h2.2])

theorem broadcast_failed_send_deactivates_witness :
    uAlice ∈ GetActiveUsers botNoMsg.db ∧
    sendFail uAlice.ChatID (qWro.FormatTelegramMessage none) = 0 ∧
    ({ ID := 1, ChatID := 10, Username := "alice", JoinedAt := 0, Active := false } : User).Active
      = false := by
  refine ⟨by decide, rfl, ?_⟩
  exact (broadcast_failed_send_deactivates sendFail updFail botNoMsg qWro none uAlice
    (by decide) (by decide) (fun m hm => Option.noConfusion hm) rfl).1
    { ID := 1, ChatID := 10, Username := "alice", JoinedAt := 0, Active := false }
    (by decide) rfl

/-- C5: during a broadcast cycle, a subscriber holding a live message
whose in-place update fails but whose subsequent fresh send succeeds
(non-zero new id) ends the cycle with the new id recorded as its live
message — the stale handle is gone — and with every users-table row of
its chat id still active. -/
theorem broadcast_resend_keeps_subscriber
    (send : Int → String → Nat) (upd : Int → Nat → String → Bool)
    (b : TelegramBot) (queueData : QueueData) (changes : Option QueueChanges) (u : User)
    (m newID : Nat)
    (hnodup : (b.db.map User.ChatID).Nodup)
    (hmem : u ∈ GetActiveUsers b.db)
    (hm : b.userMsgs u.ChatID = some m)
    (hupd : upd u.ChatID m (queueData.FormatTelegramMessage changes) = false)
    (hsend : send u.ChatID (queueData.FormatTelegramMessage changes) = newID)
    (hnz : newID ≠ 0) :
    (BroadcastQueueUpdate send upd b queueData changes).userMsgs u.ChatID = some newID ∧
    ∀ r ∈ (BroadcastQueueUpdate send upd b queueData changes).db,
      r.ChatID = u.ChatID → r.Active = true := by
  have hnd2 : ((GetActiveUsers b.db).map User.ChatID).Nodup :=
    hnodup.sublist ((List.filter_sublist b.db).map User.ChatID)
  have hu2 := List.mem_filter.mp hmem
  have hact : allActive b.db u.ChatID := by
    intro r hr hrc
    have hru : r = u := List.inj_on_of_nodup_map hnodup hr hu2.1 hrc
    rw [hru]
    simpa using hu2.2
  exact foldl_resend_success send upd _ (GetActiveUsers b.db) b u m newID hmem hnd2 hm
    hupd hsend hnz hact

theorem broadcast_resend_keeps_subscriber_witness :
    botWithMsg.userMsgs uAlice.ChatID = some 5 ∧
    updFail uAlice.ChatID 5 (qWro.FormatTelegramMessage none) = false ∧
    (BroadcastQueueUpdate send77 updFail botWithMsg qWro none).userMsgs uAlice.ChatID
      = some 77 := by
  refine ⟨by decide, rfl, ?_⟩
  exact (broadcast_resend_keeps_subscriber send77 updFail botWithMsg qWro none uAlice 5 77
    (by decide) (by decide) (by decide) rfl rfl (by decide)).1
